import Mathlib

/-!
Shallow embedding of `src/main.py` (AngelOne MCP server).

The module exposes five MCP tools backed by the external SmartAPI SDK
(`get_proftfolio`, `get_candle_data`, `place_order`, `cancel_order`,
`get_order_book`) plus a pure greeting resource (`get_greeting`), and a
session helper `get_smart_api_session`.

Modelling choices:
- Python exceptions are `Exn` values carrying their `str()` message;
  a function that may raise returns `Except Exn _`.
- The external SDK (SmartApi, pyotp) is an oracle record `SDK` whose
  methods return `Except Exn _`; payload dictionaries the code never
  inspects are modelled by the opaque carrier `Value := String`.
- `logzero.logger` calls and `SmartConnect(...)` allocations are the only
  side effects; they are threaded through an explicit `World` state
  (a log of entries and a counter of allocated SmartConnect instances;
  a freshly allocated instance gets the current counter as its id).
- Tools whose `except` branch returns Python `None` have result type
  `Except Exn (Option Value)`; returning `Except.ok none` is Python
  `return None`, `Except.error e` is an escaping exception.
- Python `float` prices are only ever passed through unchanged, so they
  are modelled by `Rat`; Python `int` quantities by `Int`.
-/

/-- A Python exception, identified by its message (`str(e)`). -/
structure Exn where
  msg : String
deriving Repr, DecidableEq

/-- One logzero log record: level (`error` for `logger.error`,
`exception` for `logger.exception`) and formatted message. -/
structure LogEntry where
  level : String
  msg : String
deriving Repr, DecidableEq

/-- Opaque payload dictionaries returned by SDK calls. -/
abbrev Value := String

/-- The dictionary returned by `smartApi.generateSession`: the code reads
only `data['status']`; the rest of the dictionary is `message`. -/
structure AuthData where
  status : Bool
  message : String
deriving Repr, DecidableEq

/-- Rendering of the auth dictionary for `logger.error(data)`. -/
def renderAuthData (d : AuthData) : String :=
  "status=" ++ toString d.status ++ " message=" ++ d.message

/-- A `SmartConnect` instance: the api key it was constructed with and a
fresh allocation id. -/
structure SmartConnect where
  api_key : Option String
  id : Nat
deriving Repr, DecidableEq

/-- Query dictionary built by `get_candle_data`. -/
structure CandleQuery where
  exchange : String
  symboltoken : String
  interval : String
  fromdate : String
  todate : String
deriving Repr, DecidableEq

/-- Order dictionary built by `place_order`. -/
structure OrderParams where
  variety : String
  tradingsymbol : String
  symboltoken : String
  transactiontype : String
  exchange : String
  ordertype : String
  producttype : String
  duration : String
  price : Rat
  squareoff : String
  stoploss : String
  quantity : Int
deriving Repr, DecidableEq

/-- Oracle for the external SDK and pyotp: each method either returns a
payload or raises. `totp` takes the (possibly missing) `token` env var,
`generateSession` takes username, pwd and the computed TOTP. -/
structure SDK where
  totp : Option String → Except Exn String
  generateSession : Option String → Option String → String → Except Exn AuthData
  holding : Except Exn Value
  getCandleData : CandleQuery → Except Exn Value
  placeOrderFullResponse : OrderParams → Except Exn Value
  cancelOrder : String → String → Except Exn Value
  orderBook : Except Exn Value

/-- Module-level configuration read by `os.environ.get` at import
(lines 13-17 of main.py); absent variables are `none`. -/
structure Config where
  api_key : Option String
  username : Option String
  pwd : Option String
  token : Option String
  correlation_id : Option String
deriving Repr, DecidableEq

/-- Lines 12-17 of main.py: the five `os.environ.get` reads performed once
at module import. `os.environ.get` returns `None` for a missing key, so
this is total and never raises. -/
def moduleInit (environ : String → Option String) : Config :=
  { api_key := environ "api_key"
    username := environ "username"
    pwd := environ "pwd"
    token := environ "token"
    correlation_id := environ "correlation_id" }

/-- Mutable world: count of SmartConnect instances allocated so far
(the next instance gets this id) and the emitted log. -/
structure World where
  allocCount : Nat
  log : List LogEntry
deriving Repr, DecidableEq

/-- Append one log entry. -/
def World.logged (w : World) (level msg : String) : World :=
  { w with log := w.log ++ [⟨level, msg⟩] }

/-- Lines 19-40: `get_smart_api_session`. Constructs a fresh
`SmartConnect(api_key)`, then in a `try` computes the TOTP, calls
`generateSession`, raises on a false status flag after logging the data,
and otherwise returns the instance; the `except` block logs
`Authentication failed: {e}` and re-raises the same exception. -/
def get_smart_api_session (cfg : Config) (sdk : SDK) (w : World) :
    Except Exn SmartConnect × World :=
  let smartApi : SmartConnect := ⟨cfg.api_key, w.allocCount⟩
  let w1 : World := { w with allocCount := w.allocCount + 1 }
  let body : Except Exn SmartConnect × World :=
    match sdk.totp cfg.token with
    | Except.error e => (Except.error e, w1)
    | Except.ok totp =>
      match sdk.generateSession cfg.username cfg.pwd totp with
      | Except.error e => (Except.error e, w1)
      | Except.ok data =>
        if data.status = false then
          (Except.error ⟨"Failed to authenticate with SmartAPI"⟩,
            w1.logged "error" (renderAuthData data))
        else
          (Except.ok smartApi, w1)
  match body with
  | (Except.ok v, w2) => (Except.ok v, w2)
  | (Except.error e, w2) =>
      (Except.error e, w2.logged "error" ("Authentication failed: " ++ e.msg))

/-- Lines 43-65: `get_proftfolio`. Establishes a session, fetches
holdings; on any exception logs `Failed to get portfolio: {e}` and
re-raises the same exception. -/
def get_proftfolio (cfg : Config) (sdk : SDK) (w : World) :
    Except Exn Value × World :=
  match get_smart_api_session cfg sdk w with
  | (Except.error e, w1) =>
      (Except.error e, w1.logged "exception" ("Failed to get portfolio: " ++ e.msg))
  | (Except.ok _smartApi, w1) =>
    match sdk.holding with
    | Except.ok allholding => (Except.ok allholding, w1)
    | Except.error e =>
        (Except.error e, w1.logged "exception" ("Failed to get portfolio: " ++ e.msg))

/-- Lines 67-105: `get_candle_data`. Establishes a session, builds the
fixed-exchange query dictionary, forwards it to `getCandleData`; on any
exception logs `Historic Api failed: {e}` and returns `None`. -/
def get_candle_data (cfg : Config) (sdk : SDK) (w : World)
    (start_time end_time : String)
    (symboltoken : String := "3045") (interval : String := "ONE_MINUTE") :
    Except Exn (Option Value) × World :=
  match get_smart_api_session cfg sdk w with
  | (Except.error e, w1) =>
      (Except.ok none, w1.logged "exception" ("Historic Api failed: " ++ e.msg))
  | (Except.ok _smartApi, w1) =>
    let queryParams : CandleQuery :=
      { exchange := "NSE"
        symboltoken := symboltoken
        interval := interval
        fromdate := start_time
        todate := end_time }
    match sdk.getCandleData queryParams with
    | Except.ok response => (Except.ok (some response), w1)
    | Except.error e =>
        (Except.ok none, w1.logged "exception" ("Historic Api failed: " ++ e.msg))

/-- Lines 107-154: `place_order`. Builds the fixed-shape order dictionary
(hardcoded variety `NORMAL`, exchange `NSE`, duration `DAY`, squareoff
`0`, stoploss `0`), establishes a session and forwards the dictionary to
`placeOrderFullResponse`; on any exception logs
`Order placement failed: {e}` and returns `None`. -/
def place_order (cfg : Config) (sdk : SDK) (w : World)
    (symbol symboltoken transactiontype : String) (quantity : Int)
    (ordertype : String := "LIMIT") (producttype : String := "DELIVERY")
    (price : Rat := 0) :
    Except Exn (Option Value) × World :=
  let orderParams : OrderParams :=
    { variety := "NORMAL"
      tradingsymbol := symbol
      symboltoken := symboltoken
      transactiontype := transactiontype
      exchange := "NSE"
      ordertype := ordertype
      producttype := producttype
      duration := "DAY"
      price := price
      squareoff := "0"
      stoploss := "0"
      quantity := quantity }
  match get_smart_api_session cfg sdk w with
  | (Except.error e, w1) =>
      (Except.ok none, w1.logged "exception" ("Order placement failed: " ++ e.msg))
  | (Except.ok _smartApi, w1) =>
    match sdk.placeOrderFullResponse orderParams with
    | Except.ok response => (Except.ok (some response), w1)
    | Except.error e =>
        (Except.ok none, w1.logged "exception" ("Order placement failed: " ++ e.msg))

/-- Lines 156-183: `cancel_order`. Establishes a session and forwards
order id and variety to `cancelOrder`; on any exception logs
`Failed to cancel the order: {e}` and returns `None`. -/
def cancel_order (cfg : Config) (sdk : SDK) (w : World)
    (order_id : String) (variety : String := "NORMAL") :
    Except Exn (Option Value) × World :=
  match get_smart_api_session cfg sdk w with
  | (Except.error e, w1) =>
      (Except.ok none, w1.logged "exception" ("Failed to cancel the order: " ++ e.msg))
  | (Except.ok _smartApi, w1) =>
    match sdk.cancelOrder order_id variety with
    | Except.ok response => (Except.ok (some response), w1)
    | Except.error e =>
        (Except.ok none, w1.logged "exception" ("Failed to cancel the order: " ++ e.msg))

/-- Lines 185-209: `get_order_book`. Establishes a session and fetches the
order book; on any exception logs `Fetching order book failed: {e}` and
returns `None`. -/
def get_order_book (cfg : Config) (sdk : SDK) (w : World) :
    Except Exn (Option Value) × World :=
  match get_smart_api_session cfg sdk w with
  | (Except.error e, w1) =>
      (Except.ok none, w1.logged "exception" ("Fetching order book failed: " ++ e.msg))
  | (Except.ok _smartApi, w1) =>
    match sdk.orderBook with
    | Except.ok orderbook => (Except.ok (some orderbook), w1)
    | Except.error e =>
        (Except.ok none, w1.logged "exception" ("Fetching order book failed: " ++ e.msg))

/-- Lines 211-222: `get_greeting`, the greeting resource. Pure string
formatting of the f-string template. -/
def get_greeting (name : String) : String :=
  "Namastae, " ++ name ++ "!"

/-! ### Shared helper lemma and concrete fixtures -/

/-- Closed form of `get_smart_api_session`: outcome and world for each of
the four cases (TOTP raises, generateSession raises, false status flag,
success). -/
theorem get_smart_api_session_eq (cfg : Config) (sdk : SDK) (w : World) :
    get_smart_api_session cfg sdk w =
      match sdk.totp cfg.token with
      | Except.error e =>
          (Except.error e,
            ⟨w.allocCount + 1,
              w.log ++ [⟨"error", "Authentication failed: " ++ e.msg⟩]⟩)
      | Except.ok totp =>
        match sdk.generateSession cfg.username cfg.pwd totp with
        | Except.error e =>
            (Except.error e,
              ⟨w.allocCount + 1,
                w.log ++ [⟨"error", "Authentication failed: " ++ e.msg⟩]⟩)
        | Except.ok data =>
          if data.status = false then
            (Except.error ⟨"Failed to authenticate with SmartAPI"⟩,
              ⟨w.allocCount + 1,
                w.log ++ [⟨"error", renderAuthData data⟩,
                  ⟨"error",
                    "Authentication failed: Failed to authenticate with SmartAPI"⟩]⟩)
          else
            (Except.ok ⟨cfg.api_key, w.allocCount⟩, ⟨w.allocCount + 1, w.log⟩) := by
  unfold get_smart_api_session
  cases htot : sdk.totp cfg.token with
  | error e => simp [htot, World.logged]
  | ok totp =>
    cases hgen : sdk.generateSession cfg.username cfg.pwd totp with
    | error e => simp [htot, hgen, World.logged]
    | ok data =>
      by_cases hst : data.status = false <;>
        simp [htot, hgen, hst, World.logged, List.append_assoc]

/-- Fixture: an SDK for which every call succeeds. -/
def sdkOK : SDK where
  totp := fun _ => Except.ok "123456"
  generateSession := fun _ _ _ => Except.ok ⟨true, "SUCCESS"⟩
  holding := Except.ok "HOLDINGS"
  getCandleData := fun _ => Except.ok "CANDLES"
  placeOrderFullResponse := fun _ => Except.ok "ORDERED"
  cancelOrder := fun _ _ => Except.ok "CANCELLED"
  orderBook := Except.ok "ORDERBOOK"

/-- Fixture: authentication responds with a false status flag. -/
def sdkAuthFail : SDK :=
  { sdkOK with generateSession := fun _ _ _ => Except.ok ⟨false, "AB1007"⟩ }

/-- Fixture: the TOTP computation raises. -/
def sdkTotpFail : SDK :=
  { sdkOK with totp := fun _ => Except.error ⟨"TypeError"⟩ }

/-- Fixture: authentication succeeds but every data call raises. -/
def sdkDataFail : SDK :=
  { sdkOK with
    holding := Except.error ⟨"boom"⟩
    getCandleData := fun _ => Except.error ⟨"boom"⟩
    placeOrderFullResponse := fun _ => Except.error ⟨"boom"⟩
    cancelOrder := fun _ _ => Except.error ⟨"boom"⟩
    orderBook := Except.error ⟨"boom"⟩ }

/-- Fixture: a fully populated configuration. -/
def cfg0 : Config :=
  ⟨some "key", some "user", some "pw", some "tok", some "cid"⟩

/-- Fixture: the initial world. -/
def w0 : World := ⟨0, []⟩

/-! ### Claim theorems -/

/-- C7: the greeting resource returns exactly `"Namastae, " ++ name ++ "!"`
for every name — it is a pure total function with no world/SDK argument,
so it never raises and has no side effects — and at `"World"` it returns
exactly `"Namastae, World!"`. -/
theorem get_greeting_format :
    (∀ name : String, get_greeting name = "Namastae, " ++ name ++ "!") ∧
    get_greeting "World" = "Namastae, World!" :=
  ⟨fun _ => rfl, rfl⟩

/-- C5: whenever the TOTP computation and the SDK authentication call
succeed and the response status is not false, session establishment
returns exactly the `SmartConnect` instance it constructed (api key from
the module config, the fresh allocation id), unmodified. -/
theorem get_smart_api_session_returns_instance
    (cfg : Config) (sdk : SDK) (w : World) (t : String) (d : AuthData)
    (htot : sdk.totp cfg.token = Except.ok t)
    (hgen : sdk.generateSession cfg.username cfg.pwd t = Except.ok d)
    (hst : d.status ≠ false) :
    (get_smart_api_session cfg sdk w).1 =
      Except.ok ⟨cfg.api_key, w.allocCount⟩ := by
  rw [get_smart_api_session_eq]
  simp [htot, hgen, hst]

/-- Witness for C5 at a concrete succeeding SDK. -/
theorem get_smart_api_session_returns_instance_witness :
    (get_smart_api_session cfg0 sdkOK w0).1 = Except.ok ⟨some "key", 0⟩ :=
  get_smart_api_session_returns_instance cfg0 sdkOK w0 "123456"
    ⟨true, "SUCCESS"⟩ rfl rfl (by decide)

/-- C4: session establishment (a) on a false status flag in the auth
response logs the data at error level and raises
`Failed to authenticate with SmartAPI` (the except block logs once more
and re-raises it); (b) on an exception from the TOTP computation logs
`Authentication failed: ...` at error level and re-raises that same
exception; (c) likewise for an exception from the SDK session call. -/
theorem get_smart_api_session_error_policy
    (cfg : Config) (sdk : SDK) (w : World) :
    (∀ t d, sdk.totp cfg.token = Except.ok t →
       sdk.generateSession cfg.username cfg.pwd t = Except.ok d →
       d.status = false →
       (get_smart_api_session cfg sdk w).1 =
         Except.error ⟨"Failed to authenticate with SmartAPI"⟩ ∧
       (get_smart_api_session cfg sdk w).2.log =
         w.log ++ [⟨"error", renderAuthData d⟩,
           ⟨"error", "Authentication failed: Failed to authenticate with SmartAPI"⟩]) ∧
    (∀ e, sdk.totp cfg.token = Except.error e →
       (get_smart_api_session cfg sdk w).1 = Except.error e ∧
       (get_smart_api_session cfg sdk w).2.log =
         w.log ++ [⟨"error", "Authentication failed: " ++ e.msg⟩]) ∧
    (∀ t e, sdk.totp cfg.token = Except.ok t →
       sdk.generateSession cfg.username cfg.pwd t = Except.error e →
       (get_smart_api_session cfg sdk w).1 = Except.error e ∧
       (get_smart_api_session cfg sdk w).2.log =
         w.log ++ [⟨"error", "Authentication failed: " ++ e.msg⟩]) := by
  refine ⟨fun t d htot hgen hst => ?_, fun e htot => ?_,
    fun t e htot hgen => ?_⟩ <;> rw [get_smart_api_session_eq]
  · simp [htot, hgen, hst]
  · simp [htot]
  · simp [htot, hgen]

/-- Witness for C4 at a concrete failure-flagged auth response. -/
theorem get_smart_api_session_error_policy_witness :
    (get_smart_api_session cfg0 sdkAuthFail w0).1 =
      Except.error ⟨"Failed to authenticate with SmartAPI"⟩ :=
  ((get_smart_api_session_error_policy cfg0 sdkAuthFail w0).1 "123456"
    ⟨false, "AB1007"⟩ rfl rfl rfl).1

/-- C1: whenever the session is established, `place_order` forwards to the
SDK exactly the fixed-shape order dictionary: variety `NORMAL`, exchange
`NSE`, duration `DAY`, squareoff `0`, stoploss `0`, the caller's symbol as
`tradingsymbol`, and the remaining caller-supplied fields unchanged. -/
theorem place_order_forwards_fixed_shape
    (cfg : Config) (sdk : SDK) (w : World)
    (symbol symboltoken transactiontype : String) (quantity : Int)
    (ordertype producttype : String) (price : Rat)
    (s : SmartConnect) (w1 : World)
    (h : get_smart_api_session cfg sdk w = (Except.ok s, w1)) :
    (place_order cfg sdk w symbol symboltoken transactiontype quantity
        ordertype producttype price).1 =
      match sdk.placeOrderFullResponse
          { variety := "NORMAL"
            tradingsymbol := symbol
            symboltoken := symboltoken
            transactiontype := transactiontype
            exchange := "NSE"
            ordertype := ordertype
            producttype := producttype
            duration := "DAY"
            price := price
            squareoff := "0"
            stoploss := "0"
            quantity := quantity } with
      | Except.ok r => Except.ok (some r)
      | Except.error _ => Except.ok none := by
  simp only [place_order, h]
  cases hres : sdk.placeOrderFullResponse
      ⟨"NORMAL", symbol, symboltoken, transactiontype, "NSE", ordertype,
        producttype, "DAY", price, "0", "0", quantity⟩ with
  | error e => simp [hres]
  | ok r => simp [hres]

/-- Witness for C1 at a concrete succeeding SDK. -/
theorem place_order_forwards_fixed_shape_witness :
    (place_order cfg0 sdkOK w0 "SBIN-EQ" "3045" "BUY" 10
        "LIMIT" "DELIVERY" 0).1 = Except.ok (some "ORDERED") := by
  have h := place_order_forwards_fixed_shape cfg0 sdkOK w0 "SBIN-EQ" "3045"
    "BUY" 10 "LIMIT" "DELIVERY" 0 ⟨some "key", 0⟩ ⟨1, []⟩ (by rfl)
  exact h.trans rfl

/-- C6: whenever the session is established, `get_candle_data` called with
default optional arguments forwards to the SDK a query with symboltoken
`3045`, interval `ONE_MINUTE`, exchange `NSE`, and the caller's start and
end times passed through unchanged and unvalidated. -/
theorem get_candle_data_default_query
    (cfg : Config) (sdk : SDK) (w : World) (start_time end_time : String)
    (s : SmartConnect) (w1 : World)
    (h : get_smart_api_session cfg sdk w = (Except.ok s, w1)) :
    (get_candle_data cfg sdk w start_time end_time).1 =
      match sdk.getCandleData
          { exchange := "NSE"
            symboltoken := "3045"
            interval := "ONE_MINUTE"
            fromdate := start_time
            todate := end_time } with
      | Except.ok r => Except.ok (some r)
      | Except.error _ => Except.ok none := by
  simp only [get_candle_data, h]
  cases hres : sdk.getCandleData
      ⟨"NSE", "3045", "ONE_MINUTE", start_time, end_time⟩ with
  | error e => simp [hres]
  | ok r => simp [hres]

/-- Witness for C6 at a concrete succeeding SDK. -/
theorem get_candle_data_default_query_witness :
    (get_candle_data cfg0 sdkOK w0 "2024-01-01 09:15" "2024-01-01 15:30").1 =
      Except.ok (some "CANDLES") := by
  have h := get_candle_data_default_query cfg0 sdkOK w0
    "2024-01-01 09:15" "2024-01-01 15:30" ⟨some "key", 0⟩ ⟨1, []⟩ (by rfl)
  exact h.trans rfl

/-! ### Derived helpers: session outcome and per-tool result shapes -/

/-- Outcome of the authentication handshake, independent of the world:
which exception (if any) session establishment propagates. -/
def sessionOutcome (cfg : Config) (sdk : SDK) : Except Exn Unit :=
  match sdk.totp cfg.token with
  | Except.error e => Except.error e
  | Except.ok t =>
    match sdk.generateSession cfg.username cfg.pwd t with
    | Except.error e => Except.error e
    | Except.ok d =>
      if d.status = false then
        Except.error ⟨"Failed to authenticate with SmartAPI"⟩
      else Except.ok ()

/-- The session result is the session outcome, with success carrying the
freshly allocated instance. -/
theorem session_fst_eq (cfg : Config) (sdk : SDK) (w : World) :
    (get_smart_api_session cfg sdk w).1 =
      (sessionOutcome cfg sdk).map
        (fun _ => (⟨cfg.api_key, w.allocCount⟩ : SmartConnect)) := by
  rw [get_smart_api_session_eq]
  unfold sessionOutcome
  cases htot : sdk.totp cfg.token with
  | error e => simp [htot, Except.map]
  | ok t =>
    cases hgen : sdk.generateSession cfg.username cfg.pwd t with
    | error e => simp [htot, hgen, Except.map]
    | ok d =>
      by_cases hst : d.status = false <;> simp [htot, hgen, hst, Except.map]

/-- Session establishment allocates exactly one SmartConnect instance. -/
theorem session_allocCount (cfg : Config) (sdk : SDK) (w : World) :
    (get_smart_api_session cfg sdk w).2.allocCount = w.allocCount + 1 := by
  rw [get_smart_api_session_eq]
  cases htot : sdk.totp cfg.token with
  | error e => simp [htot]
  | ok t =>
    cases hgen : sdk.generateSession cfg.username cfg.pwd t with
    | error e => simp [htot, hgen]
    | ok d => by_cases hst : d.status = false <;> simp [htot, hgen, hst]

/-- Appending a log entry leaves the allocation counter unchanged. -/
theorem World.logged_allocCount (w : World) (l m : String) :
    (w.logged l m).allocCount = w.allocCount := rfl

/-- Result of `get_proftfolio` as a function of the session outcome. -/
theorem get_proftfolio_fst (cfg : Config) (sdk : SDK) (w : World) :
    (get_proftfolio cfg sdk w).1 =
      match sessionOutcome cfg sdk with
      | Except.error e => Except.error e
      | Except.ok _ =>
        match sdk.holding with
        | Except.ok v => Except.ok v
        | Except.error e => Except.error e := by
  rcases hgs : get_smart_api_session cfg sdk w with ⟨r, w1⟩
  have hf := session_fst_eq cfg sdk w
  rw [hgs] at hf
  simp only at hf
  cases ho : sessionOutcome cfg sdk with
  | error e =>
    rw [ho] at hf; simp [Except.map] at hf; subst hf
    simp [get_proftfolio, hgs, ho]
  | ok u =>
    rw [ho] at hf; simp [Except.map] at hf; subst hf
    cases hh : sdk.holding with
    | ok v => simp [get_proftfolio, hgs, ho, hh]
    | error e => simp [get_proftfolio, hgs, ho, hh]

/-- Result of `get_candle_data` as a function of the session outcome. -/
theorem get_candle_data_fst (cfg : Config) (sdk : SDK) (w : World)
    (st et tk iv : String) :
    (get_candle_data cfg sdk w st et tk iv).1 =
      match sessionOutcome cfg sdk with
      | Except.error _ => Except.ok none
      | Except.ok _ =>
        match sdk.getCandleData ⟨"NSE", tk, iv, st, et⟩ with
        | Except.ok r => Except.ok (some r)
        | Except.error _ => Except.ok none := by
  rcases hgs : get_smart_api_session cfg sdk w with ⟨r, w1⟩
  have hf := session_fst_eq cfg sdk w
  rw [hgs] at hf
  simp only at hf
  cases ho : sessionOutcome cfg sdk with
  | error e =>
    rw [ho] at hf; simp [Except.map] at hf; subst hf
    simp [get_candle_data, hgs, ho]
  | ok u =>
    rw [ho] at hf; simp [Except.map] at hf; subst hf
    cases hc : sdk.getCandleData ⟨"NSE", tk, iv, st, et⟩ with
    | ok v => simp [get_candle_data, hgs, ho, hc]
    | error e => simp [get_candle_data, hgs, ho, hc]

/-- Result of `place_order` as a function of the session outcome. -/
theorem place_order_fst (cfg : Config) (sdk : SDK) (w : World)
    (sym tk tt : String) (q : Int) (ot pt : String) (pr : Rat) :
    (place_order cfg sdk w sym tk tt q ot pt pr).1 =
      match sessionOutcome cfg sdk with
      | Except.error _ => Except.ok none
      | Except.ok _ =>
        match sdk.placeOrderFullResponse
            ⟨"NORMAL", sym, tk, tt, "NSE", ot, pt, "DAY", pr, "0", "0", q⟩ with
        | Except.ok r => Except.ok (some r)
        | Except.error _ => Except.ok none := by
  rcases hgs : get_smart_api_session cfg sdk w with ⟨r, w1⟩
  have hf := session_fst_eq cfg sdk w
  rw [hgs] at hf
  simp only at hf
  cases ho : sessionOutcome cfg sdk with
  | error e =>
    rw [ho] at hf; simp [Except.map] at hf; subst hf
    simp [place_order, hgs, ho]
  | ok u =>
    rw [ho] at hf; simp [Except.map] at hf; subst hf
    cases hp : sdk.placeOrderFullResponse
        ⟨"NORMAL", sym, tk, tt, "NSE", ot, pt, "DAY", pr, "0", "0", q⟩ with
    | ok v => simp [place_order, hgs, ho, hp]
    | error e => simp [place_order, hgs, ho, hp]

/-- Result of `cancel_order` as a function of the session outcome. -/
theorem cancel_order_fst (cfg : Config) (sdk : SDK) (w : World)
    (oid v : String) :
    (cancel_order cfg sdk w oid v).1 =
      match sessionOutcome cfg sdk with
      | Except.error _ => Except.ok none
      | Except.ok _ =>
        match sdk.cancelOrder oid v with
        | Except.ok r => Except.ok (some r)
        | Except.error _ => Except.ok none := by
  rcases hgs : get_smart_api_session cfg sdk w with ⟨r, w1⟩
  have hf := session_fst_eq cfg sdk w
  rw [hgs] at hf
  simp only at hf
  cases ho : sessionOutcome cfg sdk with
  | error e =>
    rw [ho] at hf; simp [Except.map] at hf; subst hf
    simp [cancel_order, hgs, ho]
  | ok u =>
    rw [ho] at hf; simp [Except.map] at hf; subst hf
    cases hc : sdk.cancelOrder oid v with
    | ok r => simp [cancel_order, hgs, ho, hc]
    | error e => simp [cancel_order, hgs, ho, hc]

/-- Result of `get_order_book` as a function of the session outcome. -/
theorem get_order_book_fst (cfg : Config) (sdk : SDK) (w : World) :
    (get_order_book cfg sdk w).1 =
      match sessionOutcome cfg sdk with
      | Except.error _ => Except.ok none
      | Except.ok _ =>
        match sdk.orderBook with
        | Except.ok r => Except.ok (some r)
        | Except.error _ => Except.ok none := by
  rcases hgs : get_smart_api_session cfg sdk w with ⟨r, w1⟩
  have hf := session_fst_eq cfg sdk w
  rw [hgs] at hf
  simp only at hf
  cases ho : sessionOutcome cfg sdk with
  | error e =>
    rw [ho] at hf; simp [Except.map] at hf; subst hf
    simp [get_order_book, hgs, ho]
  | ok u =>
    rw [ho] at hf; simp [Except.map] at hf; subst hf
    cases hb : sdk.orderBook with
    | ok r => simp [get_order_book, hgs, ho, hb]
    | error e => simp [get_order_book, hgs, ho, hb]

/-- `get_candle_data` always returns a value, never an exception. -/
theorem get_candle_data_never_raises (cfg : Config) (sdk : SDK) (w : World)
    (st et tk iv : String) :
    ∃ v, (get_candle_data cfg sdk w st et tk iv).1 = Except.ok v := by
  rw [get_candle_data_fst]
  cases ho : sessionOutcome cfg sdk with
  | error e => exact ⟨none, rfl⟩
  | ok u =>
    cases hc : sdk.getCandleData ⟨"NSE", tk, iv, st, et⟩ with
    | ok r => exact ⟨some r, rfl⟩
    | error e => exact ⟨none, rfl⟩

/-- `place_order` always returns a value, never an exception. -/
theorem place_order_never_raises (cfg : Config) (sdk : SDK) (w : World)
    (sym tk tt : String) (q : Int) (ot pt : String) (pr : Rat) :
    ∃ v, (place_order cfg sdk w sym tk tt q ot pt pr).1 = Except.ok v := by
  rw [place_order_fst]
  cases ho : sessionOutcome cfg sdk with
  | error e => exact ⟨none, rfl⟩
  | ok u =>
    cases hp : sdk.placeOrderFullResponse
        ⟨"NORMAL", sym, tk, tt, "NSE", ot, pt, "DAY", pr, "0", "0", q⟩ with
    | ok r => exact ⟨some r, rfl⟩
    | error e => exact ⟨none, rfl⟩

/-- `cancel_order` always returns a value, never an exception. -/
theorem cancel_order_never_raises (cfg : Config) (sdk : SDK) (w : World)
    (oid v : String) :
    ∃ r, (cancel_order cfg sdk w oid v).1 = Except.ok r := by
  rw [cancel_order_fst]
  cases ho : sessionOutcome cfg sdk with
  | error e => exact ⟨none, rfl⟩
  | ok u =>
    cases hc : sdk.cancelOrder oid v with
    | ok r => exact ⟨some r, rfl⟩
    | error e => exact ⟨none, rfl⟩

/-- `get_order_book` always returns a value, never an exception. -/
theorem get_order_book_never_raises (cfg : Config) (sdk : SDK) (w : World) :
    ∃ v, (get_order_book cfg sdk w).1 = Except.ok v := by
  rw [get_order_book_fst]
  cases ho : sessionOutcome cfg sdk with
  | error e => exact ⟨none, rfl⟩
  | ok u =>
    cases hb : sdk.orderBook with
    | ok r => exact ⟨some r, rfl⟩
    | error e => exact ⟨none, rfl⟩

/-- C2: whenever session establishment raises, or the session succeeds and
the holdings call raises, `get_proftfolio` logs the exception and
re-raises exactly the original exception (its result type has no null
case); and it is the only one of the SDK-backed tools that can propagate
an exception — the other four always return a value. -/
theorem get_proftfolio_reraises (cfg : Config) (sdk : SDK) (w : World) (e : Exn)
    (h : (get_smart_api_session cfg sdk w).1 = Except.error e ∨
         ((∃ s, (get_smart_api_session cfg sdk w).1 = Except.ok s) ∧
           sdk.holding = Except.error e)) :
    (get_proftfolio cfg sdk w).1 = Except.error e ∧
    (get_proftfolio cfg sdk w).2.log =
      (get_smart_api_session cfg sdk w).2.log ++
        [⟨"exception", "Failed to get portfolio: " ++ e.msg⟩] ∧
    (∀ (cfg2 : Config) (sdk2 : SDK) (w2 : World) (st et tk iv : String),
       ∃ v, (get_candle_data cfg2 sdk2 w2 st et tk iv).1 = Except.ok v) ∧
    (∀ (cfg2 : Config) (sdk2 : SDK) (w2 : World) (sym tk tt : String)
       (q : Int) (ot pt : String) (pr : Rat),
       ∃ v, (place_order cfg2 sdk2 w2 sym tk tt q ot pt pr).1 = Except.ok v) ∧
    (∀ (cfg2 : Config) (sdk2 : SDK) (w2 : World) (oid v : String),
       ∃ r, (cancel_order cfg2 sdk2 w2 oid v).1 = Except.ok r) ∧
    (∀ (cfg2 : Config) (sdk2 : SDK) (w2 : World),
       ∃ v, (get_order_book cfg2 sdk2 w2).1 = Except.ok v) := by
  have key : (get_proftfolio cfg sdk w).1 = Except.error e ∧
      (get_proftfolio cfg sdk w).2.log =
        (get_smart_api_session cfg sdk w).2.log ++
          [⟨"exception", "Failed to get portfolio: " ++ e.msg⟩] := by
    rcases hgs : get_smart_api_session cfg sdk w with ⟨r, w1⟩
    rw [hgs] at h
    rcases h with h | ⟨⟨s, hs⟩, hh⟩
    · simp only at h
      subst h
      simp [get_proftfolio, hgs, World.logged]
    · simp only at hs
      subst hs
      simp [get_proftfolio, hgs, hh, World.logged]
  exact ⟨key.1, key.2,
    fun cfg2 sdk2 w2 st et tk iv =>
      get_candle_data_never_raises cfg2 sdk2 w2 st et tk iv,
    fun cfg2 sdk2 w2 sym tk tt q ot pt pr =>
      place_order_never_raises cfg2 sdk2 w2 sym tk tt q ot pt pr,
    fun cfg2 sdk2 w2 oid v => cancel_order_never_raises cfg2 sdk2 w2 oid v,
    fun cfg2 sdk2 w2 => get_order_book_never_raises cfg2 sdk2 w2⟩

/-- Witness for C2: with a raising TOTP, the portfolio tool re-raises the
original exception. -/
theorem get_proftfolio_reraises_witness :
    (get_proftfolio cfg0 sdkTotpFail w0).1 = Except.error ⟨"TypeError"⟩ :=
  (get_proftfolio_reraises cfg0 sdkTotpFail w0 ⟨"TypeError"⟩
    (Or.inl (by rfl))).1

/-- C3: for each of the four swallowing tools, if the session is
established but the underlying SDK data call raises, the tool logs the
exception (level `exception`) and returns null instead of raising. -/
theorem swallowing_tools_return_none_on_sdk_error
    (cfg : Config) (sdk : SDK) (w : World) (s : SmartConnect) (w1 : World)
    (hs : get_smart_api_session cfg sdk w = (Except.ok s, w1)) :
    (∀ (st et tk iv : String) (e : Exn),
       sdk.getCandleData ⟨"NSE", tk, iv, st, et⟩ = Except.error e →
       (get_candle_data cfg sdk w st et tk iv).1 = Except.ok none ∧
       (get_candle_data cfg sdk w st et tk iv).2.log =
         w1.log ++ [⟨"exception", "Historic Api failed: " ++ e.msg⟩]) ∧
    (∀ (sym tk tt : String) (q : Int) (ot pt : String) (pr : Rat) (e : Exn),
       sdk.placeOrderFullResponse
           ⟨"NORMAL", sym, tk, tt, "NSE", ot, pt, "DAY", pr, "0", "0", q⟩ =
         Except.error e →
       (place_order cfg sdk w sym tk tt q ot pt pr).1 = Except.ok none ∧
       (place_order cfg sdk w sym tk tt q ot pt pr).2.log =
         w1.log ++ [⟨"exception", "Order placement failed: " ++ e.msg⟩]) ∧
    (∀ (oid v : String) (e : Exn),
       sdk.cancelOrder oid v = Except.error e →
       (cancel_order cfg sdk w oid v).1 = Except.ok none ∧
       (cancel_order cfg sdk w oid v).2.log =
         w1.log ++ [⟨"exception", "Failed to cancel the order: " ++ e.msg⟩]) ∧
    (∀ e : Exn, sdk.orderBook = Except.error e →
       (get_order_book cfg sdk w).1 = Except.ok none ∧
       (get_order_book cfg sdk w).2.log =
         w1.log ++ [⟨"exception", "Fetching order book failed: " ++ e.msg⟩]) := by
  refine ⟨fun st et tk iv e hres => ?_, fun sym tk tt q ot pt pr e hres => ?_,
    fun oid v e hres => ?_, fun e hres => ?_⟩
  · constructor <;> simp [get_candle_data, hs, hres, World.logged]
  · constructor <;> simp [place_order, hs, hres, World.logged]
  · constructor <;> simp [cancel_order, hs, hres, World.logged]
  · constructor <;> simp [get_order_book, hs, hres, World.logged]

/-- Witness for C3: a session that succeeds followed by a raising candle
call yields null. -/
theorem swallowing_tools_return_none_on_sdk_error_witness :
    (get_candle_data cfg0 sdkDataFail w0
        "2024-01-01 09:15" "2024-01-01 15:30" "3045" "ONE_MINUTE").1 =
      Except.ok none :=
  ((swallowing_tools_return_none_on_sdk_error cfg0 sdkDataFail w0
      ⟨some "key", 0⟩ ⟨1, []⟩ (by rfl)).1
    "2024-01-01 09:15" "2024-01-01 15:30" "3045" "ONE_MINUTE"
    ⟨"boom"⟩ rfl).1

/-- C9: for each of the four swallowing tools, an exception raised by
session establishment itself (including the failure-flagged auth
response) is caught inside the tool and yields a null return, so the
caller cannot distinguish an authentication failure from a data-call
failure. -/
theorem swallowing_tools_mask_auth_failure
    (cfg : Config) (sdk : SDK) (w : World) (e : Exn)
    (h : (get_smart_api_session cfg sdk w).1 = Except.error e) :
    (∀ st et tk iv : String,
       (get_candle_data cfg sdk w st et tk iv).1 = Except.ok none) ∧
    (∀ (sym tk tt : String) (q : Int) (ot pt : String) (pr : Rat),
       (place_order cfg sdk w sym tk tt q ot pt pr).1 = Except.ok none) ∧
    (∀ oid v : String,
       (cancel_order cfg sdk w oid v).1 = Except.ok none) ∧
    (get_order_book cfg sdk w).1 = Except.ok none := by
  have ho : sessionOutcome cfg sdk = Except.error e := by
    have hf := session_fst_eq cfg sdk w
    rw [h] at hf
    cases hoc : sessionOutcome cfg sdk with
    | error e2 => rw [hoc] at hf; simp [Except.map] at hf; rw [hf]
    | ok u => rw [hoc] at hf; simp [Except.map] at hf
  refine ⟨fun st et tk iv => ?_, fun sym tk tt q ot pt pr => ?_,
    fun oid v => ?_, ?_⟩
  · rw [get_candle_data_fst, ho]
  · rw [place_order_fst, ho]
  · rw [cancel_order_fst, ho]
  · rw [get_order_book_fst, ho]

/-- Witness for C9: with a failure-flagged auth response, the order book
tool returns null. -/
theorem swallowing_tools_mask_auth_failure_witness :
    (get_order_book cfg0 sdkAuthFail w0).1 = Except.ok none :=
  (swallowing_tools_mask_auth_failure cfg0 sdkAuthFail w0
    ⟨"Failed to authenticate with SmartAPI"⟩ (by rfl)).2.2.2

/-- `get_proftfolio` allocates exactly one SmartConnect instance. -/
theorem get_proftfolio_allocCount (cfg : Config) (sdk : SDK) (w : World) :
    (get_proftfolio cfg sdk w).2.allocCount = w.allocCount + 1 := by
  have h1 := session_allocCount cfg sdk w
  rcases hgs : get_smart_api_session cfg sdk w with ⟨r, w1⟩
  rw [hgs] at h1
  simp only at h1
  cases r with
  | error e => simp [get_proftfolio, hgs, World.logged, h1]
  | ok s =>
    cases hh : sdk.holding with
    | ok v => simp [get_proftfolio, hgs, hh, h1]
    | error e => simp [get_proftfolio, hgs, hh, World.logged, h1]

/-- `get_candle_data` allocates exactly one SmartConnect instance. -/
theorem get_candle_data_allocCount (cfg : Config) (sdk : SDK) (w : World)
    (st et tk iv : String) :
    (get_candle_data cfg sdk w st et tk iv).2.allocCount = w.allocCount + 1 := by
  have h1 := session_allocCount cfg sdk w
  rcases hgs : get_smart_api_session cfg sdk w with ⟨r, w1⟩
  rw [hgs] at h1
  simp only at h1
  cases r with
  | error e => simp [get_candle_data, hgs, World.logged, h1]
  | ok s =>
    cases hc : sdk.getCandleData ⟨"NSE", tk, iv, st, et⟩ with
    | ok v => simp [get_candle_data, hgs, hc, h1]
    | error e => simp [get_candle_data, hgs, hc, World.logged, h1]

/-- `place_order` allocates exactly one SmartConnect instance. -/
theorem place_order_allocCount (cfg : Config) (sdk : SDK) (w : World)
    (sym tk tt : String) (q : Int) (ot pt : String) (pr : Rat) :
    (place_order cfg sdk w sym tk tt q ot pt pr).2.allocCount =
      w.allocCount + 1 := by
  have h1 := session_allocCount cfg sdk w
  rcases hgs : get_smart_api_session cfg sdk w with ⟨r, w1⟩
  rw [hgs] at h1
  simp only at h1
  cases r with
  | error e => simp [place_order, hgs, World.logged, h1]
  | ok s =>
    cases hp : sdk.placeOrderFullResponse
        ⟨"NORMAL", sym, tk, tt, "NSE", ot, pt, "DAY", pr, "0", "0", q⟩ with
    | ok v => simp [place_order, hgs, hp, h1]
    | error e => simp [place_order, hgs, hp, World.logged, h1]

/-- `cancel_order` allocates exactly one SmartConnect instance. -/
theorem cancel_order_allocCount (cfg : Config) (sdk : SDK) (w : World)
    (oid v : String) :
    (cancel_order cfg sdk w oid v).2.allocCount = w.allocCount + 1 := by
  have h1 := session_allocCount cfg sdk w
  rcases hgs : get_smart_api_session cfg sdk w with ⟨r, w1⟩
  rw [hgs] at h1
  simp only at h1
  cases r with
  | error e => simp [cancel_order, hgs, World.logged, h1]
  | ok s =>
    cases hc : sdk.cancelOrder oid v with
    | ok v2 => simp [cancel_order, hgs, hc, h1]
    | error e => simp [cancel_order, hgs, hc, World.logged, h1]

/-- `get_order_book` allocates exactly one SmartConnect instance. -/
theorem get_order_book_allocCount (cfg : Config) (sdk : SDK) (w : World) :
    (get_order_book cfg sdk w).2.allocCount = w.allocCount + 1 := by
  have h1 := session_allocCount cfg sdk w
  rcases hgs : get_smart_api_session cfg sdk w with ⟨r, w1⟩
  rw [hgs] at h1
  simp only at h1
  cases r with
  | error e => simp [get_order_book, hgs, World.logged, h1]
  | ok s =>
    cases hb : sdk.orderBook with
    | ok v => simp [get_order_book, hgs, hb, h1]
    | error e => simp [get_order_book, hgs, hb, World.logged, h1]

/-- C8: every SDK-backed tool invocation performs the full handshake anew
on a freshly constructed SmartConnect instance — each invocation (and
session establishment itself) allocates exactly one new instance, and on
success the session returns precisely the fresh instance — and no tool
result depends on the incoming world (log or allocation history), so no
invocation can observe state written by a previous one. -/
theorem tools_fresh_session_no_shared_state
    (cfg : Config) (sdk : SDK) (w w2 : World) :
    ((get_smart_api_session cfg sdk w).2.allocCount = w.allocCount + 1) ∧
    (∀ s, (get_smart_api_session cfg sdk w).1 = Except.ok s →
       s = ⟨cfg.api_key, w.allocCount⟩) ∧
    ((get_proftfolio cfg sdk w).2.allocCount = w.allocCount + 1) ∧
    (∀ st et tk iv : String,
       (get_candle_data cfg sdk w st et tk iv).2.allocCount =
         w.allocCount + 1) ∧
    (∀ (sym tk tt : String) (q : Int) (ot pt : String) (pr : Rat),
       (place_order cfg sdk w sym tk tt q ot pt pr).2.allocCount =
         w.allocCount + 1) ∧
    (∀ oid v : String,
       (cancel_order cfg sdk w oid v).2.allocCount = w.allocCount + 1) ∧
    ((get_order_book cfg sdk w).2.allocCount = w.allocCount + 1) ∧
    ((get_proftfolio cfg sdk w).1 = (get_proftfolio cfg sdk w2).1) ∧
    (∀ st et tk iv : String,
       (get_candle_data cfg sdk w st et tk iv).1 =
         (get_candle_data cfg sdk w2 st et tk iv).1) ∧
    (∀ (sym tk tt : String) (q : Int) (ot pt : String) (pr : Rat),
       (place_order cfg sdk w sym tk tt q ot pt pr).1 =
         (place_order cfg sdk w2 sym tk tt q ot pt pr).1) ∧
    (∀ oid v : String,
       (cancel_order cfg sdk w oid v).1 = (cancel_order cfg sdk w2 oid v).1) ∧
    ((get_order_book cfg sdk w).1 = (get_order_book cfg sdk w2).1) := by
  refine ⟨session_allocCount cfg sdk w, ?_, get_proftfolio_allocCount cfg sdk w,
    fun st et tk iv => get_candle_data_allocCount cfg sdk w st et tk iv,
    fun sym tk tt q ot pt pr =>
      place_order_allocCount cfg sdk w sym tk tt q ot pt pr,
    fun oid v => cancel_order_allocCount cfg sdk w oid v,
    get_order_book_allocCount cfg sdk w, ?_, ?_, ?_, ?_, ?_⟩
  · intro s hs
    have hf := session_fst_eq cfg sdk w
    rw [hs] at hf
    cases ho : sessionOutcome cfg sdk with
    | error e => rw [ho] at hf; simp [Except.map] at hf
    | ok u => rw [ho] at hf; simp [Except.map] at hf; exact hf
  · rw [get_proftfolio_fst cfg sdk w, get_proftfolio_fst cfg sdk w2]
  · intro st et tk iv
    rw [get_candle_data_fst cfg sdk w, get_candle_data_fst cfg sdk w2]
  · intro sym tk tt q ot pt pr
    rw [place_order_fst cfg sdk w, place_order_fst cfg sdk w2]
  · intro oid v
    rw [cancel_order_fst cfg sdk w, cancel_order_fst cfg sdk w2]
  · rw [get_order_book_fst cfg sdk w, get_order_book_fst cfg sdk w2]

/-- Witness for C8: concrete allocation count and fresh-instance facts. -/
theorem tools_fresh_session_no_shared_state_witness :
    (get_smart_api_session cfg0 sdkOK w0).2.allocCount = w0.allocCount + 1 ∧
    (⟨some "key", 0⟩ : SmartConnect) = ⟨cfg0.api_key, w0.allocCount⟩ :=
  ⟨(tools_fresh_session_no_shared_state cfg0 sdkOK w0 w0).1,
   (tools_fresh_session_no_shared_state cfg0 sdkOK w0 w0).2.1
     ⟨some "key", 0⟩ (by rfl)⟩

/-- C10: the module-level configuration is read by total `os.environ.get`
lookups (missing variables become `none`, so import never fails); a
missing token only surfaces when a tool triggers session establishment,
whose TOTP call then raises — the portfolio tool re-raises that
exception, the other four tools return null. -/
theorem module_env_lazy_failure (environ : String → Option String) :
    moduleInit environ =
      ⟨environ "api_key", environ "username", environ "pwd",
        environ "token", environ "correlation_id"⟩ ∧
    (∀ (sdk : SDK) (w : World) (e : Exn),
       environ "token" = none → sdk.totp none = Except.error e →
       (get_proftfolio (moduleInit environ) sdk w).1 = Except.error e ∧
       (∀ st et tk iv : String,
          (get_candle_data (moduleInit environ) sdk w st et tk iv).1 =
            Except.ok none) ∧
       (∀ (sym tk tt : String) (q : Int) (ot pt : String) (pr : Rat),
          (place_order (moduleInit environ) sdk w sym tk tt q ot pt pr).1 =
            Except.ok none) ∧
       (∀ oid v : String,
          (cancel_order (moduleInit environ) sdk w oid v).1 =
            Except.ok none) ∧
       (get_order_book (moduleInit environ) sdk w).1 = Except.ok none) := by
  refine ⟨rfl, fun sdk w e htok htotp => ?_⟩
  have ho : sessionOutcome (moduleInit environ) sdk = Except.error e := by
    simp [sessionOutcome, moduleInit, htok, htotp]
  refine ⟨?_, fun st et tk iv => ?_, fun sym tk tt q ot pt pr => ?_,
    fun oid v => ?_, ?_⟩
  · rw [get_proftfolio_fst, ho]
  · rw [get_candle_data_fst, ho]
  · rw [place_order_fst, ho]
  · rw [cancel_order_fst, ho]
  · rw [get_order_book_fst, ho]

/-- Witness for C10: with an empty environment and a TOTP that raises on
a missing token, the portfolio tool re-raises. -/
theorem module_env_lazy_failure_witness :
    (get_proftfolio (moduleInit (fun _ => none)) sdkTotpFail w0).1 =
      Except.error ⟨"TypeError"⟩ :=
  ((module_env_lazy_failure (fun _ => none)).2 sdkTotpFail w0
    ⟨"TypeError"⟩ rfl rfl).1
